import Mathlib

/-!
Verification of the edge-proxy server (`src/frontend/server.js`).

The server is an Express application in front of a chat backend.  We give a
shallow embedding of its request-handling core:

* JSON values (`Json`) with a serializer (`Json.stringify`) modelling
  `JSON.stringify`;
* request/response records for the inbound request, the outbound request
  built by the proxy, the backend response, and the relayed response;
* the generic forwarder `proxyToBackend`;
* the four legacy handlers and the health handler;
* Express first-match routing over the registration order of the source.

The backend is external, so a backend is modelled as a function from the
outbound request to either a response or a failure carrying a diagnostic
string (`fetch` rejecting).  `response.json()` of the legacy handlers is
modelled by an abstract parse function `String → Option Json` passed as a
parameter, `none` standing for a parse throw.
-/

/-- JSON values, as produced by `express.json()` body parsing. -/
inductive Json where
  | null : Json
  | bool (b : Bool) : Json
  | num (n : Int) : Json
  | str (s : String) : Json
  | arr (xs : List Json) : Json
  | obj (kvs : List (String × Json)) : Json

/-- String escaping used by the JSON serializer. -/
def escapeJsonChar (c : Char) : String :=
  if c = '"' then "\\\""
  else if c = '\\' then "\\\\"
  else if c = '\n' then "\\n"
  else if c = '\t' then "\\t"
  else if c = '\r' then "\\r"
  else String.singleton c

/-- Escape every character of a string for JSON output. -/
def escapeJson (s : String) : String :=
  String.join (s.toList.map escapeJsonChar)

mutual

/-- Model of `JSON.stringify` on JSON values. -/
def Json.stringify : Json → String
  | .null => "null"
  | .bool true => "true"
  | .bool false => "false"
  | .num n => toString n
  | .str s => "\"" ++ escapeJson s ++ "\""
  | .arr xs => "[" ++ stringifyElems xs ++ "]"
  | .obj kvs => "\x7b" ++ stringifyFields kvs ++ "\x7d"

/-- Comma-separated serialization of array elements. -/
def stringifyElems : List Json → String
  | [] => ""
  | [x] => x.stringify
  | x :: y :: xs => x.stringify ++ "," ++ stringifyElems (y :: xs)

/-- Comma-separated serialization of object fields. -/
def stringifyFields : List (String × Json) → String
  | [] => ""
  | [(k, v)] => "\"" ++ escapeJson k ++ "\":" ++ v.stringify
  | (k, v) :: kv :: kvs =>
      "\"" ++ escapeJson k ++ "\":" ++ v.stringify ++ "," ++ stringifyFields (kv :: kvs)

end

/-- An inbound HTTP request as seen by an Express handler: method,
`req.originalUrl` (path plus query string), the inbound header set, and the
body already parsed to JSON by `express.json()`. -/
structure InboundRequest where
  method : String
  originalUrl : String
  headers : List (String × String)
  body : Json

/-- The outbound request the proxy hands to `fetch`: target URL, method,
header set, and optional body text. -/
structure OutboundRequest where
  url : String
  method : String
  headers : List (String × String)
  body : Option String
deriving DecidableEq

/-- A backend response as observed through `fetch`: status code, the
`content-type` header (`none` when absent), and the body read as text. -/
structure BackendResponse where
  status : Nat
  contentType : Option String
  text : String
deriving DecidableEq

/-- The response relayed to the original caller: status, the content-type
explicitly set by the handler (`none` when the handler sets none), and the
body text. -/
structure RelayedResponse where
  status : Nat
  contentType : Option String
  body : String
deriving DecidableEq

/-- The external backend: maps an outbound request to a response, or to a
failure (`Except.error`) whose `String` is the diagnostic detail of the
underlying error (connection refused, timeout, DNS failure, ...). -/
def Backend : Type := OutboundRequest → Except String BackendResponse

/-- `const METHODS_WITH_BODY = new Set(["POST", "PUT", "PATCH", "DELETE"])`. -/
def METHODS_WITH_BODY : List String := ["POST", "PUT", "PATCH", "DELETE"]

/-- Model of JavaScript `String.prototype.includes`: substring containment. -/
def strIncludes (s sub : String) : Bool :=
  decide (sub.toList <:+: s.toList)

/-- `response.headers.get("content-type")?.includes("application/json")`,
with the optional chaining collapsing a missing header to `false`. -/
def ctIncludesJson : Option String → Bool
  | none => false
  | some s => strIncludes s "application/json"

/-- The outbound request built by `proxyToBackend` before calling `fetch`:
url `BACKEND_URL + req.originalUrl`, the inbound method, the fixed
`Content-Type: application/json` header object, and
`METHODS_WITH_BODY.has(req.method) ? JSON.stringify(req.body) : undefined`
as body. -/
def mkOutbound (backendUrl : String) (req : InboundRequest) : OutboundRequest :=
  { url := backendUrl ++ req.originalUrl
    method := req.method
    headers := [("Content-Type", "application/json")]
    body :=
      if METHODS_WITH_BODY.contains req.method then some req.body.stringify
      else none }

/-- Body of the generic forwarder's catch branch:
`res.status(500).json(. error: "Failed to connect to backend" .)`. -/
def connectErrorBody : String :=
  (Json.obj [("error", Json.str "Failed to connect to backend")]).stringify

/-- The generic forwarder `proxyToBackend`.  On success it relays the
backend status and body text, setting `Content-Type: application/json`
exactly when the backend content-type contains `application/json`; on any
fetch failure it responds 500 with the fixed connection-error JSON body. -/
def proxyToBackend (backendUrl : String) (backend : Backend) (req : InboundRequest) :
    RelayedResponse :=
  match backend (mkOutbound backendUrl req) with
  | .ok response =>
      if ctIncludesJson response.contentType then
        { status := response.status
          contentType := some "application/json"
          body := response.text }
      else
        { status := response.status
          contentType := none
          body := response.text }
  | .error _ =>
      { status := 500
        contentType := some "application/json"
        body := connectErrorBody }

/-- `res.status(500).json(. error: msg .)` as used by the legacy handlers. -/
def jsonError500 (msg : String) : RelayedResponse :=
  { status := 500
    contentType := some "application/json"
    body := (Json.obj [("error", Json.str msg)]).stringify }

/-- `res.json(data)`: Express serializes `data`, sets
`Content-Type: application/json`, and responds with the default status 200. -/
def resJson (data : Json) : RelayedResponse :=
  { status := 200
    contentType := some "application/json"
    body := data.stringify }

/-- Common shape of the four legacy handlers: `fetch` the outbound request,
`await response.json()` (modelled by `parse`, `none` = throw), `res.json`
the parsed data; any failure falls to the catch branch, which responds 500
with the handler's route-specific error message. -/
def legacyFetchJson (backend : Backend) (parse : String → Option Json)
    (outReq : OutboundRequest) (failMsg : String) : RelayedResponse :=
  match backend outReq with
  | .error _ => jsonError500 failMsg
  | .ok response =>
      match parse response.text with
      | none => jsonError500 failMsg
      | some data => resJson data

/-- Legacy `app.get("/chats")` handler: `fetch(BACKEND_URL + "/chats")`
with no options (method GET, no headers, no body). -/
def legacyGetChats (backendUrl : String) (backend : Backend)
    (parse : String → Option Json) : RelayedResponse :=
  legacyFetchJson backend parse ⟨backendUrl ++ "/chats", "GET", [], none⟩
    "Failed to fetch chats"

/-- Legacy `app.get("/chats/:id")` handler:
`fetch(BACKEND_URL + "/chats/" + req.params.id)`. -/
def legacyGetChatById (backendUrl : String) (backend : Backend)
    (parse : String → Option Json) (id : String) : RelayedResponse :=
  legacyFetchJson backend parse ⟨backendUrl ++ "/chats/" ++ id, "GET", [], none⟩
    "Failed to fetch chat"

/-- Legacy `app.delete("/chats/:id")` handler: same fetch with
`method: "DELETE"`. -/
def legacyDeleteChatById (backendUrl : String) (backend : Backend)
    (parse : String → Option Json) (id : String) : RelayedResponse :=
  legacyFetchJson backend parse ⟨backendUrl ++ "/chats/" ++ id, "DELETE", [], none⟩
    "Failed to delete chat"

/-- Legacy `app.delete("/chats")` handler. -/
def legacyDeleteChats (backendUrl : String) (backend : Backend)
    (parse : String → Option Json) : RelayedResponse :=
  legacyFetchJson backend parse ⟨backendUrl ++ "/chats", "DELETE", [], none⟩
    "Failed to clear chats"

/-- `app.get("/health")` handler: `res.json(. status: "ok" .)`,
no backend call. -/
def healthResponse : RelayedResponse :=
  resJson (Json.obj [("status", Json.str "ok")])

/-! ### Routing

Express dispatches a request to the first registered route whose method and
path pattern both match.  We model path patterns as segment lists (literal
or `:param` capture), and the application's route table in the registration
order of the source file. -/

/-- A segment of an Express path pattern. -/
inductive Seg where
  | lit (s : String) : Seg
  | capture (name : String) : Seg
deriving DecidableEq

/-- The handlers registered in the application. -/
inductive Handler where
  | generic : Handler
  | legacyGetChatsH : Handler
  | legacyGetChatByIdH : Handler
  | legacyDeleteChatByIdH : Handler
  | legacyDeleteChatsH : Handler
  | healthH : Handler
deriving DecidableEq

/-- A route registration: method restriction (`none` for `app.all`), path
pattern, handler. -/
structure Route where
  method : Option String
  pattern : List Seg
  handler : Handler
deriving DecidableEq

/-- Split a character list at every occurrence of a separator, collecting
the pieces (accumulator holds the current piece, reversed). -/
def splitCharAux (sep : Char) : List Char → List Char → List String
  | [], acc => [String.mk acc.reverse]
  | c :: cs, acc =>
      if c = sep then String.mk acc.reverse :: splitCharAux sep cs []
      else splitCharAux sep cs (c :: acc)

/-- Split a string at every occurrence of a separator character
(`"/chats/42"` at `'/'` gives `["", "chats", "42"]`). -/
def strSplitOnChar (s : String) (sep : Char) : List String :=
  splitCharAux sep s.toList []

/-- Drop a single trailing empty segment (Express non-strict routing
ignores one trailing slash). -/
def dropTrailingEmpty : List String → List String
  | [] => []
  | [""] => []
  | [x] => [x]
  | x :: y :: xs => x :: dropTrailingEmpty (y :: xs)

/-- Split a request path into its segments: `/chats/42` to
`["chats", "42"]`. -/
def pathSegs (p : String) : List String :=
  match strSplitOnChar p '/' with
  | "" :: rest => dropTrailingEmpty rest
  | segs => segs

/-- A pattern segment against a concrete path segment: a literal must be
equal, a capture matches any non-empty segment. -/
def segMatches : Seg → String → Bool
  | .lit s, t => s == t
  | .capture _, t => t != ""

/-- A pattern against a segment list: same length, segments match
pointwise. -/
def patMatches : List Seg → List String → Bool
  | [], [] => true
  | s :: ps, t :: ts => segMatches s t && patMatches ps ts
  | _, _ => false

/-- A pattern against a request path. -/
def pathMatches (pat : List Seg) (p : String) : Bool :=
  patMatches pat (pathSegs p)

/-- Method restriction check: `app.all` accepts every method. -/
def methodOk : Option String → String → Bool
  | none, _ => true
  | some m, m2 => m == m2

/-- Whether a route accepts a request with the given method and path. -/
def routeMatches (r : Route) (method p : String) : Bool :=
  methodOk r.method method && pathMatches r.pattern p

/-- First-match dispatch over a route table. -/
def dispatch : List Route → String → String → Option Handler
  | [], _, _ => none
  | r :: rs, m, p =>
      if routeMatches r m p then some r.handler else dispatch rs m p

/-- The application's route table, in the registration order of the
source: generic forwarder bindings first, then the four legacy handlers,
then the health route. -/
def routes : List Route :=
  [ ⟨some "POST", [.lit "chat"], .generic⟩
  , ⟨none, [.lit "chats"], .generic⟩
  , ⟨none, [.lit "chats", .capture "id"], .generic⟩
  , ⟨none, [.lit "stats"], .generic⟩
  , ⟨some "GET", [.lit "chats"], .legacyGetChatsH⟩
  , ⟨some "GET", [.lit "chats", .capture "id"], .legacyGetChatByIdH⟩
  , ⟨some "DELETE", [.lit "chats", .capture "id"], .legacyDeleteChatByIdH⟩
  , ⟨some "DELETE", [.lit "chats"], .legacyDeleteChatsH⟩
  , ⟨some "GET", [.lit "health"], .healthH⟩ ]

/-- The same route table with the four legacy registrations removed. -/
def routesWithoutLegacy : List Route :=
  [ ⟨some "POST", [.lit "chat"], .generic⟩
  , ⟨none, [.lit "chats"], .generic⟩
  , ⟨none, [.lit "chats", .capture "id"], .generic⟩
  , ⟨none, [.lit "stats"], .generic⟩
  , ⟨some "GET", [.lit "health"], .healthH⟩ ]

/-- The path part of `req.originalUrl` (Express matches on the path with
the query string stripped). -/
def reqPath (req : InboundRequest) : String :=
  (strSplitOnChar req.originalUrl '?').headD ""

/-- `req.params.id` for the `/chats/:id` routes: the second path segment. -/
def idParam (req : InboundRequest) : String :=
  match pathSegs (reqPath req) with
  | [_, i] => i
  | _ => ""

/-- Run the handler a route dispatched to. -/
def runHandler (backendUrl : String) (backend : Backend)
    (parse : String → Option Json) (h : Handler) (req : InboundRequest) :
    RelayedResponse :=
  match h with
  | .generic => proxyToBackend backendUrl backend req
  | .legacyGetChatsH => legacyGetChats backendUrl backend parse
  | .legacyGetChatByIdH => legacyGetChatById backendUrl backend parse (idParam req)
  | .legacyDeleteChatByIdH => legacyDeleteChatById backendUrl backend parse (idParam req)
  | .legacyDeleteChatsH => legacyDeleteChats backendUrl backend parse
  | .healthH => healthResponse

/-- Run the application against a route table: dispatch, then run the
chosen handler (`none` when no route matches and the request falls through
to the static file layer). -/
def runApp (rs : List Route) (backendUrl : String) (backend : Backend)
    (parse : String → Option Json) (req : InboundRequest) :
    Option RelayedResponse :=
  (dispatch rs req.method (reqPath req)).map
    (fun h => runHandler backendUrl backend parse h req)

example :
    proxyToBackend "http://b:9" (fun _ => .ok ⟨503, some "text/plain", "overloaded"⟩)
      ⟨"GET", "/stats", [], Json.null⟩ =
    ⟨503, none, "overloaded"⟩ := by decide

example : connectErrorBody = "\x7b\"error\":\"Failed to connect to backend\"\x7d" := by decide

example : dispatch routes "GET" "/chats" = some .generic := by decide

example : dispatch routes "DELETE" "/chats/42" = some .generic := by decide

example : dispatch routes "GET" "/health" = some .healthH := by decide

example : dispatch routes "GET" "/nothing" = none := by decide

example : pathSegs "/chats/42" = ["chats", "42"] := by decide

example : reqPath ⟨"GET", "/chats/42?x=1", [], Json.null⟩ = "/chats/42" := by decide

/-! ### Claims about the generic forwarder -/

/-- C1: the relayed status code equals the backend's status code for every
backend response (non-2xx included, passed through verbatim, not treated as
an error); the sole exception is a failing backend call, which relays the
fixed status 500 whatever the failure's cause. -/
theorem relayed_status_eq_backend_status (backendUrl : String) (backend : Backend)
    (req : InboundRequest) :
    (∀ resp : BackendResponse, backend (mkOutbound backendUrl req) = .ok resp →
      (proxyToBackend backendUrl backend req).status = resp.status) ∧
    (∀ e : String, backend (mkOutbound backendUrl req) = .error e →
      (proxyToBackend backendUrl backend req).status = 500) := by
  constructor
  · intro resp h
    simp only [proxyToBackend, h]
    split <;> rfl
  · intro e h
    simp only [proxyToBackend, h]

/-- Witness for C1: a backend 503 with a plain-text body is relayed as 503. -/
theorem relayed_status_eq_backend_status_witness :
    (proxyToBackend "http://b:9"
      (fun _ => .ok ⟨503, some "text/plain", "overloaded"⟩)
      ⟨"GET", "/stats", [], Json.null⟩).status = 503 :=
  (relayed_status_eq_backend_status "http://b:9"
      (fun _ => .ok ⟨503, some "text/plain", "overloaded"⟩)
      ⟨"GET", "/stats", [], Json.null⟩).1
    ⟨503, some "text/plain", "overloaded"⟩ rfl

/-- C2: whenever the backend call fails, whatever the diagnostic detail
`e` of the failure, the forwarder responds 500 with exactly the fixed JSON
connection-error body; the response is a constant, so no detail of `e`
appears in it. -/
theorem backend_failure_relays_fixed_500 (backendUrl : String) (backend : Backend)
    (req : InboundRequest) (e : String)
    (h : backend (mkOutbound backendUrl req) = .error e) :
    proxyToBackend backendUrl backend req =
      ⟨500, some "application/json",
        "\x7b\"error\":\"Failed to connect to backend\"\x7d"⟩ := by
  simp only [proxyToBackend, h]
  rfl

/-- Witness for C2: `DELETE /chats/7` with an unreachable backend yields
the fixed 500 response. -/
theorem backend_failure_relays_fixed_500_witness :
    proxyToBackend "http://b:9"
      (fun _ => .error "ECONNREFUSED 127.0.0.1:9")
      ⟨"DELETE", "/chats/7", [], Json.null⟩ =
      ⟨500, some "application/json",
        "\x7b\"error\":\"Failed to connect to backend\"\x7d"⟩ :=
  backend_failure_relays_fixed_500 "http://b:9"
    (fun _ => .error "ECONNREFUSED 127.0.0.1:9")
    ⟨"DELETE", "/chats/7", [], Json.null⟩ "ECONNREFUSED 127.0.0.1:9" rfl

/-- C3: the outbound body is the JSON serialization of the inbound body
exactly for the methods POST, PUT, PATCH, DELETE, and absent for every
other method. -/
theorem outbound_body_iff_method_with_body (backendUrl : String) (req : InboundRequest) :
    (req.method ∈ (["POST", "PUT", "PATCH", "DELETE"] : List String) →
      (mkOutbound backendUrl req).body = some req.body.stringify) ∧
    (req.method ∉ (["POST", "PUT", "PATCH", "DELETE"] : List String) →
      (mkOutbound backendUrl req).body = none) := by
  constructor <;> intro h <;> simp [mkOutbound, METHODS_WITH_BODY] <;> simp at h <;> tauto

/-- Witness for C3: a `POST /chat` request with an object body sends its
serialization, and a `GET /stats` request sends no body. -/
theorem outbound_body_iff_method_with_body_witness :
    (mkOutbound "http://b:9"
        ⟨"POST", "/chat", [], Json.obj [("msg", Json.str "hi")]⟩).body =
      some (Json.obj [("msg", Json.str "hi")]).stringify ∧
    (mkOutbound "http://b:9" ⟨"GET", "/stats", [], Json.null⟩).body = none :=
  ⟨(outbound_body_iff_method_with_body "http://b:9"
      ⟨"POST", "/chat", [], Json.obj [("msg", Json.str "hi")]⟩).1 (by decide),
   (outbound_body_iff_method_with_body "http://b:9"
      ⟨"GET", "/stats", [], Json.null⟩).2 (by decide)⟩

/-- C4: when the backend call succeeds, the relayed body is the backend's
body text verbatim; the forwarder sets content-type `application/json`
exactly when the backend content-type contains the substring
`application/json`, and sets no content-type otherwise. -/
theorem relayed_content_type_branch (backendUrl : String) (backend : Backend)
    (req : InboundRequest) (resp : BackendResponse)
    (h : backend (mkOutbound backendUrl req) = .ok resp) :
    (ctIncludesJson resp.contentType = true →
      proxyToBackend backendUrl backend req =
        ⟨resp.status, some "application/json", resp.text⟩) ∧
    (ctIncludesJson resp.contentType = false →
      proxyToBackend backendUrl backend req = ⟨resp.status, none, resp.text⟩) := by
  constructor <;> intro hct <;> simp only [proxyToBackend, h, hct] <;> simp

/-- Witness for C4: a backend response whose content-type is
`application/json; charset=utf-8` and whose body is malformed JSON text is
relayed verbatim with content-type `application/json`. -/
theorem relayed_content_type_branch_witness :
    ctIncludesJson (some "application/json; charset=utf-8") = true ∧
    proxyToBackend "http://b:9"
      (fun _ => .ok ⟨200, some "application/json; charset=utf-8", "\x7b\"reply\":"⟩)
      ⟨"GET", "/chats", [], Json.null⟩ =
      ⟨200, some "application/json", "\x7b\"reply\":"⟩ :=
  ⟨by decide,
   (relayed_content_type_branch "http://b:9"
      (fun _ => .ok ⟨200, some "application/json; charset=utf-8", "\x7b\"reply\":"⟩)
      ⟨"GET", "/chats", [], Json.null⟩
      ⟨200, some "application/json; charset=utf-8", "\x7b\"reply\":"⟩ rfl).1 (by decide)⟩

/-- C5: the outbound target URL is the pure string concatenation of the
backend base URL and the inbound `originalUrl` (path plus query string),
with no rewriting or normalization; in particular base `http://b:9` and
request `/chats/42?x=1` give `http://b:9/chats/42?x=1`. -/
theorem target_url_pure_concatenation (backendUrl : String) (req : InboundRequest) :
    (mkOutbound backendUrl req).url = backendUrl ++ req.originalUrl ∧
    (mkOutbound "http://b:9" ⟨"GET", "/chats/42?x=1", [], Json.null⟩).url =
      "http://b:9/chats/42?x=1" :=
  ⟨rfl, by decide⟩

/-- C8 counterexample: a body-less `GET /stats` request still carries
`Content-Type: application/json` on the outbound call, refuting the claim
that no such header is set for body-less methods — the source passes the
fixed headers object to `fetch` unconditionally. -/
theorem outbound_header_set_on_get :
    ("Content-Type", "application/json") ∈
      (mkOutbound "http://b:9" ⟨"GET", "/stats", [], Json.null⟩).headers ∧
    (mkOutbound "http://b:9" ⟨"GET", "/stats", [], Json.null⟩).body = none := by
  constructor
  · decide
  · decide

/-- C8 amended: the outbound header set is the fixed
`Content-Type: application/json`, for every method, whether or not the
outbound request carries a body. -/
theorem outbound_headers_always_fixed (backendUrl : String) (req : InboundRequest) :
    (mkOutbound backendUrl req).headers = [("Content-Type", "application/json")] :=
  rfl

/-- C9: `GET /health` is answered with status 200 and the fixed body
`status: ok` JSON, for every backend, every parse function, and every
request whose method is GET and whose path is `/health` — the handler
makes no backend call, so the response is the same whether or not the
backend is reachable. -/
theorem health_fixed_response (backendUrl : String) (backend : Backend)
    (parse : String → Option Json) (req : InboundRequest)
    (hm : req.method = "GET") (hp : reqPath req = "/health") :
    runApp routes backendUrl backend parse req =
      some ⟨200, some "application/json", "\x7b\"status\":\"ok\"\x7d"⟩ := by
  unfold runApp
  rw [hm, hp]
  have hd : dispatch routes "GET" "/health" = some Handler.healthH := by decide
  rw [hd]
  rfl

/-- Witness for C9: a concrete `GET /health` with an unreachable backend
still gets the fixed 200 response. -/
theorem health_fixed_response_witness :
    runApp routes "http://b:9" (fun _ => .error "backend down")
      (fun _ => none) ⟨"GET", "/health", [], Json.null⟩ =
      some ⟨200, some "application/json", "\x7b\"status\":\"ok\"\x7d"⟩ :=
  health_fixed_response "http://b:9" (fun _ => .error "backend down")
    (fun _ => none) ⟨"GET", "/health", [], Json.null⟩ rfl rfl

/-- C10: inbound headers never influence the outbound call: two inbound
requests agreeing on method, url and parsed body produce identical
outbound requests, whose header set is exactly the fixed
`Content-Type: application/json`; every inbound header (Authorization,
Cookie, Accept, ...) is dropped. -/
theorem inbound_headers_never_forwarded (backendUrl : String)
    (r1 r2 : InboundRequest) (hm : r1.method = r2.method)
    (hu : r1.originalUrl = r2.originalUrl) (hb : r1.body = r2.body) :
    mkOutbound backendUrl r1 = mkOutbound backendUrl r2 ∧
    (mkOutbound backendUrl r1).headers = [("Content-Type", "application/json")] := by
  unfold mkOutbound
  rw [hm, hu, hb]
  exact ⟨rfl, rfl⟩

/-- Witness for C10: the same `POST /chat` once with Authorization and
Cookie headers and once with no headers at all yields the same outbound
request. -/
theorem inbound_headers_never_forwarded_witness :
    mkOutbound "http://b:9"
      ⟨"POST", "/chat", [("Authorization", "Bearer t"), ("Cookie", "c=1")],
        Json.obj [("msg", Json.str "hi")]⟩ =
    mkOutbound "http://b:9" ⟨"POST", "/chat", [], Json.obj [("msg", Json.str "hi")]⟩ :=
  (inbound_headers_never_forwarded "http://b:9"
      ⟨"POST", "/chat", [("Authorization", "Bearer t"), ("Cookie", "c=1")],
        Json.obj [("msg", Json.str "hi")]⟩
      ⟨"POST", "/chat", [], Json.obj [("msg", Json.str "hi")]⟩
      rfl rfl rfl).1

/-- The two route tables dispatch every request identically: each legacy
registration is preceded by an `app.all` registration with the very same
path pattern, so first-match dispatch never reaches a legacy handler. -/
theorem dispatch_routes_eq_withoutLegacy (m p : String) :
    dispatch routes m p = dispatch routesWithoutLegacy m p := by
  simp only [routes, routesWithoutLegacy, dispatch, routeMatches, methodOk,
    Bool.true_and]
  cases h2 : pathMatches [Seg.lit "chats"] p <;>
    cases h3 : pathMatches [Seg.lit "chats", Seg.capture "id"] p <;>
      simp [h2, h3]

/-- C6: the application behaves exactly as it would with the four legacy
handlers removed, and every `GET`/`DELETE` request whose path matches
`/chats` or `/chats/:id` is dispatched to the generic forwarder: the
legacy handlers are dead code under first-match routing. -/
theorem legacy_handlers_shadowed :
    (∀ (backendUrl : String) (backend : Backend) (parse : String → Option Json)
        (req : InboundRequest),
      runApp routes backendUrl backend parse req =
        runApp routesWithoutLegacy backendUrl backend parse req) ∧
    (∀ m p : String, (m = "GET" ∨ m = "DELETE") →
      (pathMatches [Seg.lit "chats"] p = true ∨
        pathMatches [Seg.lit "chats", Seg.capture "id"] p = true) →
      dispatch routes m p = some Handler.generic) := by
  constructor
  · intro backendUrl backend parse req
    unfold runApp
    rw [dispatch_routes_eq_withoutLegacy]
  · intro m p hm hp
    rcases hm with hm | hm <;> subst hm <;>
      rcases hp with hp | hp <;>
        cases h2 : pathMatches [Seg.lit "chats"] p <;>
          simp_all [routes, dispatch, routeMatches, methodOk]

/-- Witness for C6: `DELETE /chats/7` is dispatched to the generic
forwarder, and with a live backend the whole application answers it
exactly as the legacy-free application does. -/
theorem legacy_handlers_shadowed_witness :
    dispatch routes "DELETE" "/chats/7" = some Handler.generic ∧
    runApp routes "http://b:9" (fun _ => .ok ⟨204, none, ""⟩) (fun _ => none)
        ⟨"DELETE", "/chats/7", [], Json.null⟩ =
      runApp routesWithoutLegacy "http://b:9" (fun _ => .ok ⟨204, none, ""⟩)
        (fun _ => none) ⟨"DELETE", "/chats/7", [], Json.null⟩ :=
  ⟨legacy_handlers_shadowed.2 "DELETE" "/chats/7" (Or.inr rfl) (Or.inr (by decide)),
   legacy_handlers_shadowed.1 "http://b:9" (fun _ => .ok ⟨204, none, ""⟩)
     (fun _ => none) ⟨"DELETE", "/chats/7", [], Json.null⟩⟩

/-- The behavior C7 asserts of one legacy handler with error message
`failMsg` and result `result`: parsed backend text is re-emitted via
`res.json` (status 200, backend status discarded, content-type never
consulted), and a parse throw or a fetch failure yields the 500
route-specific error. -/
def LegacyBehavior (backend : Backend) (parse : String → Option Json)
    (outReq : OutboundRequest) (failMsg : String) (result : RelayedResponse) : Prop :=
  (∀ resp data, backend outReq = .ok resp → parse resp.text = some data →
    result = resJson data) ∧
  (∀ resp, backend outReq = .ok resp → parse resp.text = none →
    result = jsonError500 failMsg) ∧
  (∀ e, backend outReq = .error e → result = jsonError500 failMsg)

/-- The common legacy-handler shape satisfies `LegacyBehavior`. -/
theorem legacyFetchJson_behavior (backend : Backend) (parse : String → Option Json)
    (outReq : OutboundRequest) (failMsg : String) :
    LegacyBehavior backend parse outReq failMsg
      (legacyFetchJson backend parse outReq failMsg) := by
  refine ⟨?_, ?_, ?_⟩
  · intro resp data hok hparse
    simp only [legacyFetchJson, hok, hparse]
  · intro resp hok hparse
    simp only [legacyFetchJson, hok, hparse]
  · intro e herr
    simp only [legacyFetchJson, herr]

/-- C7: each of the four legacy handlers parses the backend body as JSON
unconditionally, re-emits the parsed value with `res.json` (status 200, so
the backend's status code is not preserved, and the backend content-type
is never consulted), and on a fetch failure or a parse throw responds 500
with its route-specific message (`Failed to fetch chats`,
`Failed to fetch chat`, `Failed to delete chat`, `Failed to clear chats`). -/
theorem legacy_handlers_json_behavior (backendUrl : String) (backend : Backend)
    (parse : String → Option Json) (id : String) :
    LegacyBehavior backend parse ⟨backendUrl ++ "/chats", "GET", [], none⟩
      "Failed to fetch chats" (legacyGetChats backendUrl backend parse) ∧
    LegacyBehavior backend parse ⟨backendUrl ++ "/chats/" ++ id, "GET", [], none⟩
      "Failed to fetch chat" (legacyGetChatById backendUrl backend parse id) ∧
    LegacyBehavior backend parse ⟨backendUrl ++ "/chats/" ++ id, "DELETE", [], none⟩
      "Failed to delete chat" (legacyDeleteChatById backendUrl backend parse id) ∧
    LegacyBehavior backend parse ⟨backendUrl ++ "/chats", "DELETE", [], none⟩
      "Failed to clear chats" (legacyDeleteChats backendUrl backend parse) :=
  ⟨legacyFetchJson_behavior backend parse _ _,
   legacyFetchJson_behavior backend parse _ _,
   legacyFetchJson_behavior backend parse _ _,
   legacyFetchJson_behavior backend parse _ _⟩

/-- Witness for C7: a backend answering 404 with parseable text makes the
legacy `GET /chats` handler answer 200 (status not preserved), and a
backend answering non-JSON text makes the legacy `DELETE /chats` handler
answer the route-specific 500. -/
theorem legacy_handlers_json_behavior_witness :
    legacyGetChats "http://b:9" (fun _ => .ok ⟨404, some "text/plain", "payload"⟩)
        (fun t => if t = "payload" then some (Json.str "parsed") else none) =
      resJson (Json.str "parsed") ∧
    legacyDeleteChats "http://b:9" (fun _ => .ok ⟨200, some "text/plain", "oops"⟩)
        (fun t => if t = "payload" then some (Json.str "parsed") else none) =
      jsonError500 "Failed to clear chats" :=
  ⟨(legacy_handlers_json_behavior "http://b:9"
      (fun _ => .ok ⟨404, some "text/plain", "payload"⟩)
      (fun t => if t = "payload" then some (Json.str "parsed") else none) "7").1.1
      ⟨404, some "text/plain", "payload"⟩ (Json.str "parsed") rfl rfl,
   ((legacy_handlers_json_behavior "http://b:9"
      (fun _ => .ok ⟨200, some "text/plain", "oops"⟩)
      (fun t => if t = "payload" then some (Json.str "parsed") else none) "7").2.2.2).2.1
      ⟨200, some "text/plain", "oops"⟩ rfl rfl⟩
